import Mathlib

/-!
# Toss/Catch Motion-Validation Engine — verification development

Shallow embedding of the motion-validation core of the `mj-game` repository:
the trajectory predictor fed by `tossChecker.tsx`, the catch window tracker and
hit judge of `catchChecker.tsx`, the toss hit judge of `tossProgress.tsx`, the
gesture detectors of `handState.ts`, the debounced tutorial input of
`tutorials/toss/introduction.tsx`, and the difficulty-progression routine of
`tutorials/toss/left.tsx`.

Numbers that are IEEE doubles in the source are modelled as rationals (`ℚ`);
real-valued distances (which need square roots) appear only in the hand-gesture
detectors and are modelled over `ℝ`.  Mutable refs become fields of explicit
state records, and every event handler or per-frame callback becomes a pure
state-transition function.  Haptic pulses, ball "explosion" marks and status
texts are recorded in log fields so that effects (and their absence) are
observable in theorems.
-/

/-- A 3-component vector with rational coordinates (three.js `Vector3`). -/
structure Vec3 where
  x : ℚ
  y : ℚ
  z : ℚ
deriving DecidableEq, Repr

/-- Squared Euclidean norm of a vector. -/
def Vec3.normSq (v : Vec3) : ℚ :=
  v.x ^ 2 + v.y ^ 2 + v.z ^ 2

/-- Squared distance between two points.  The source compares
`a.distanceTo(b)` with a nonnegative threshold `r`; we compare the squares,
which is equivalent for `0 ≤ r`. -/
def distSq (a b : Vec3) : ℚ :=
  (a.x - b.x) ^ 2 + (a.y - b.y) ^ 2 + (a.z - b.z) ^ 2

/-- Which hand an event or an input belongs to (`e.hand.isRightHand()`). -/
inductive Side where
  | left
  | right
deriving DecidableEq, Repr

/-- `actionDescription` of a juggling alert event. -/
inductive JAction where
  | tossed
  | caught
deriving DecidableEq, Repr

/-- A `JugglingEvent` as observed by the checkers: identity (`id` models the
JS object reference, used by `indexOf`), its action, hand and ball. -/
structure JEvent where
  id : ℕ
  action : JAction
  hand : Side
  ballId : String
deriving DecidableEq, Repr

/-- `listenedEvent.current.indexOf(e)` followed by `splice(index, 1)`:
remove the first occurrence of `e`, leave the list unchanged when absent. -/
def eraseFirst {α : Type} [DecidableEq α] : List α → α → List α
  | [], _ => []
  | a :: t, e => if a = e then t else a :: eraseFirst t e

/- ## Trajectory predictor (§4.3)

`tossChecker.tsx` computes
`velocity = ballVelocity(tossStartPos, 0, tossEndPos, flightTime, 0)` and then
normalizes it; `ballVelocity` itself lives in the external `musicaljuggling`
library and is not under `src/`. -/

/-- Gravity constant of the projectile model (9.81 m/s²). -/
def gravity : ℚ := 981 / 100

/-- Division that records division-by-zero instead of performing it. -/
def safeDiv (a b : ℚ) : Option ℚ :=
  if b = 0 then none else some (a / b)

/-- Modelled from the spec: `ballVelocity` of the `musicaljuggling` library
(called by `tossChecker.tsx` but absent from `src/`).  Standard projectile
kinematics: horizontal components are `displacement / flightTime`, the
vertical component additionally compensates the gravity term over
`flightTime`.  `none` signals a division by zero. -/
def ballVelocityRaw (startPos endPos : Vec3) (flightTime : ℚ) : Option Vec3 := do
  let vx ← safeDiv (endPos.x - startPos.x) flightTime
  let vy ← safeDiv (endPos.y - startPos.y) flightTime
  let vz ← safeDiv (endPos.z - startPos.z) flightTime
  pure ⟨vx, vy + gravity * flightTime / 2, vz⟩

/-- The default "straight up" direction used when the pattern data is
malformed; already a unit vector. -/
def straightUp : Vec3 := ⟨0, 1, 0⟩

/-- Modelled from the spec: the trajectory predictor's guide direction
(§4.3 numeric policy).  For `flightTime ≤ 0` the launch-velocity computation
is skipped and the default straight-up direction is produced; otherwise the
launch velocity is derived (its subsequent normalization rescales by a
positive factor and does not affect definedness, so the direction is
represented here by the launch velocity itself). -/
def tossGuideDir (startPos endPos : Vec3) (flightTime : ℚ) : Option Vec3 :=
  if flightTime ≤ 0 then some straightUp
  else ballVelocityRaw startPos endPos flightTime

/- ## TossChecker window-open handler (`tossChecker.tsx`, "inf") -/

/-- The alert payload used by the toss checker: the positions delivered by the
timeline model (`e.ball.positionAtEvent(e)` and the position at
`e.nextBallEvent()`), together with `unitTime` and `siteswapHeight`. -/
structure TossAlert where
  action : JAction
  hand : Side
  siteswapHeight : ℚ
  unitTime : ℚ
  startPos : Vec3
  endPos : Vec3
deriving DecidableEq, Repr

/-- Per-hand state of `TossChecker`: the expected siteswap
(`incomingSiteswapRight`-style, `none` when no toss is expected), the cached
normalized guide velocity and the cached anchor ball position. -/
structure TossCheckerState where
  incomingRight : Option ℚ := none
  incomingLeft : Option ℚ := none
  velocityRight : Option Vec3 := none
  velocityLeft : Option Vec3 := none
  ballPosRight : Option Vec3 := none
  ballPosLeft : Option Vec3 := none
  paused : Bool := false
deriving DecidableEq, Repr

/-- The `"inf"` listener of `TossChecker` (non-stop mode): for a toss event,
compute the flight time and the guide velocity, then cache the expected
siteswap, the guide velocity and the toss start position for the hand. -/
def tossCheckerInf (e : TossAlert) (s : TossCheckerState) : TossCheckerState :=
  if e.action = JAction.tossed then
    let flightTime := e.unitTime * e.siteswapHeight
    let dir := tossGuideDir e.startPos e.endPos flightTime
    match e.hand with
    | Side.right =>
        { s with incomingRight := some e.siteswapHeight
                 velocityRight := dir
                 ballPosRight := some e.startPos }
    | Side.left =>
        { s with incomingLeft := some e.siteswapHeight
                 velocityLeft := dir
                 ballPosLeft := some e.startPos }
  else s

/-- The `"instant"` listener of `TossChecker` (stop-at-each-event mode): same
caching as the window-open listener, then `clock.pause()`. -/
def tossCheckerInstant (e : TossAlert) (s : TossCheckerState) : TossCheckerState :=
  if e.action = JAction.tossed then
    { tossCheckerInf e s with paused := true }
  else s

/-- `successRight` of `TossChecker`: clear the right-hand window and, in
stop mode, `clock.play()`. -/
def tossCheckerSuccessRight (makeStop : Bool) (s : TossCheckerState) : TossCheckerState :=
  { s with incomingRight := none
           velocityRight := none
           ballPosRight := none
           paused := if makeStop then false else s.paused }

/-- `successLeft` of `TossChecker`: clear the left-hand window and, in
stop mode, `clock.play()`. -/
def tossCheckerSuccessLeft (makeStop : Bool) (s : TossCheckerState) : TossCheckerState :=
  { s with incomingLeft := none
           velocityLeft := none
           ballPosLeft := none
           paused := if makeStop then false else s.paused }

/- ## Progression state machine (`tutorials/toss/left.tsx`) -/

/-- One entry of the per-scene level table: the congratulation messages and
the playback rate (`speed`) of the level. -/
structure LevelInfo where
  congratulations : List String
  speed : ℚ
deriving DecidableEq, Repr

/-- `levelsInformations` of `tutorials/toss/left.tsx`: a table of four levels
keyed by index. -/
def levelsInformations : ℕ → Option LevelInfo
  | 1 => some ⟨["Super ! Vous avez compris", "Essayons un peu plus vite"], 3 / 10⟩
  | 2 => some ⟨["Genial ! On peut encore accelerer"], 5 / 10⟩
  | 3 => some ⟨["Vous etes au top ! Vitesse reelle maintenant"], 8 / 10⟩
  | 4 => some ⟨["Impressionnant !"], 1⟩
  | _ => none

/-- State of the toss-practice session: current level and error tally, the
clock (time, playback rate, paused flag), every `setText` call in order
(`msgs`) and every `console.warn` in order (`warnings`). -/
structure PracticeState where
  level : ℕ
  errorCount : ℕ
  time : ℚ
  rate : ℚ
  paused : Bool
  msgs : List String
  warnings : List String
deriving DecidableEq, Repr

/-- The texts shown by the `countdown` helper, in order. -/
def countdownMsgs : List String :=
  ["Preparez-vous", "3", "2", "1", "Go !"]

/-- `nextLevel` of `tutorials/toss/left.tsx`.  Looks up the current level
(warn and halt when absent); with at least one error, resets the counter,
shows the retry message and countdown, restores the current level's playback
rate, seeks to 0 and resumes; otherwise shows the congratulations, then
either advances the level (while `level + 1 ≤ 4`), applying the next level's
playback rate after a countdown, or shows the terminal completion message.
The `await` delays only sequence the messages and are collapsed. -/
def nextLevel (s : PracticeState) : PracticeState :=
  match levelsInformations s.level with
  | none => { s with warnings := s.warnings ++ ["No information for level " ++ toString s.level] }
  | some infos =>
    if 0 < s.errorCount then
      { s with errorCount := 0
               msgs := s.msgs ++ ["Dommage, allez on reessaye"] ++ countdownMsgs
               rate := infos.speed
               time := 0
               paused := false }
    else
      let s := { s with errorCount := 0, msgs := s.msgs ++ infos.congratulations }
      if s.level + 1 ≤ 4 then
        let s := { s with level := s.level + 1 }
        match levelsInformations s.level with
        | none => { s with warnings := s.warnings ++ ["No information for level " ++ toString s.level] }
        | some nextInfo =>
            { s with msgs := s.msgs ++ countdownMsgs
                     rate := nextInfo.speed
                     time := 0
                     paused := false }
      else
        { s with msgs := s.msgs ++ ["Bravo ! Vous avez termine tous les niveaux !"] }

/-- The clock's `"reachedEnd"` listener: seek to 0, pause, then `nextLevel`. -/
def handleReachedEnd (s : PracticeState) : PracticeState :=
  nextLevel { s with time := 0, paused := true }

/- ## Catch window tracker and hit judge (`catchChecker.tsx`) -/

/-- A ball of the scene as the checkers see it: its id, its current world
position and the radius of its sphere geometry. -/
structure Ball where
  id : String
  pos : Vec3
  radius : ℚ
deriving DecidableEq, Repr

/-- `ballsRef.current.get(id)`. -/
def findBall (balls : List Ball) (ballId : String) : Option Ball :=
  balls.find? (fun b => b.id == ballId)

/-- A haptic pulse: which controller, `intensity`, `duration` (ms). -/
abbrev Pulse := Side × ℚ × ℕ

/-- State of `CatchChecker`: the monitored catch events (`listenedEvent`),
the per-hand outcome flags (`hasCatchRight` / `hasCatchLeft`), the shared
error counter and the last `setErrorText` message, the clock's paused flag,
and logs of every haptic pulse and every `isExplosing = true` mark (so that
repeated or absent effects are observable). -/
structure CatchCheckerState where
  listened : List JEvent := []
  hasCatchRight : Bool := false
  hasCatchLeft : Bool := false
  errorCount : ℕ := 0
  errorText : String := ""
  vibrationLog : List Pulse := []
  explosionLog : List String := []
  paused : Bool := false
  balls : List Ball := []
deriving DecidableEq, Repr

/-- The `"inf"` listener of `CatchChecker`: for a catch event, push it onto
the monitored list and reset the outcome flag of its hand. -/
def catchCheckerInf (e : JEvent) (s : CatchCheckerState) : CatchCheckerState :=
  if e.action = JAction.caught then
    { s with listened := s.listened ++ [e]
             hasCatchRight := if e.hand = Side.right then false else s.hasCatchRight
             hasCatchLeft := if e.hand = Side.left then false else s.hasCatchLeft }
  else s

/-- The `"instant"` listener of `CatchChecker` (stop-at-each-event mode):
same bookkeeping as the window-open listener, then `clock.pause()`. -/
def catchCheckerInstant (e : JEvent) (s : CatchCheckerState) : CatchCheckerState :=
  if e.action = JAction.caught then
    { catchCheckerInf e s with paused := true }
  else s

/-- The `"sup"` listener of `CatchChecker`: when the closing event's hand
still has a `false` outcome flag, count one error and set the missed-catch
message for that hand; in every case remove the event from the monitored
list (`indexOf` + `splice`). -/
def catchCheckerSup (e : JEvent) (s : CatchCheckerState) : CatchCheckerState :=
  let s :=
    if e.action = JAction.caught ∧ e.hand = Side.right ∧ s.hasCatchRight = false then
      { s with errorCount := s.errorCount + 1
               errorText := "Vous n'avez pas rattrape la balle a droite" }
    else s
  let s :=
    if e.action = JAction.caught ∧ e.hand = Side.left ∧ s.hasCatchLeft = false then
      { s with errorCount := s.errorCount + 1
               errorText := "Vous n'avez pas rattrape la balle a gauche" }
    else s
  { s with listened := eraseFirst s.listened e }

/-- The per-event match test of `CatchChecker`'s frame loop: the event is a
catch, its ball is present, the hand's world position is available, and the
hand-to-ball distance is nonzero (`distanceRight &&` — a distance of exactly
`0` is falsy in JS) and at most the ball's radius.  Distances are compared
through their squares, equivalently since radii are nonnegative. -/
def catchHit (rightPos leftPos : Option Vec3) (balls : List Ball) (e : JEvent) : Bool :=
  e.action == JAction.caught &&
    match findBall balls e.ballId with
    | none => false
    | some b =>
      match (match e.hand with | Side.right => rightPos | Side.left => leftPos) with
      | none => false
      | some p => decide (0 < distSq p b.pos) && decide (distSq p b.pos ≤ b.radius ^ 2)

/-- The frame loop of `CatchChecker` over the monitored events (with their
indices): on a hit, mark the ball exploding, set the hand's outcome flag,
fire the success pulse `(1, 50)`, record the index for removal and, in stop
mode, `clock.play()`; missing balls are skipped (`continue`). -/
def catchCheckerLoop (makeStop : Bool) (rightPos leftPos : Option Vec3) (balls : List Ball) :
    List JEvent → CatchCheckerState → List ℕ → ℕ → CatchCheckerState × List ℕ
  | [], s, acc, _ => (s, acc)
  | e :: rest, s, acc, i =>
    if catchHit rightPos leftPos balls e then
      let s := { s with
        explosionLog := s.explosionLog ++ [e.ballId]
        hasCatchRight := if e.hand = Side.right then true else s.hasCatchRight
        hasCatchLeft := if e.hand = Side.left then true else s.hasCatchLeft
        vibrationLog := s.vibrationLog ++ [(e.hand, 1, 50)]
        paused := if makeStop then false else s.paused }
      catchCheckerLoop makeStop rightPos leftPos balls rest s (acc ++ [i]) (i + 1)
    else
      catchCheckerLoop makeStop rightPos leftPos balls rest s acc (i + 1)

/-- Descending insertion used by `eventToRemove.sort((a, b) => b - a)`. -/
def insertDesc (i : ℕ) : List ℕ → List ℕ
  | [] => [i]
  | a :: t => if a ≤ i then i :: a :: t else a :: insertDesc i t

/-- `eventToRemove.sort((a, b) => b - a)`. -/
def sortDesc : List ℕ → List ℕ
  | [] => []
  | a :: t => insertDesc a (sortDesc t)

/-- The `useFrame` callback of `CatchChecker`: run the match loop over the
monitored events, then remove the matched indices in descending order. -/
def catchCheckerFrame (makeStop : Bool) (rightPos leftPos : Option Vec3)
    (s : CatchCheckerState) : CatchCheckerState :=
  let r := catchCheckerLoop makeStop rightPos leftPos s.balls s.listened s [] 0
  { r.1 with listened := (sortDesc r.2).foldl (fun l i => l.eraseIdx i) r.1.listened }

/- ## Toss hit judge (`tossProgress.tsx`) -/

/-- State of `TossProgress`: the monitored events, the per-hand outcome
flags (`Aclick` / `Xclick`), the error counter and message, the `score`
tally, `lastInfEvent`, whether the two indicator refs are mounted (their
purely visual color/scale updates are not modelled), and the haptic and
explosion logs. -/
structure TossProgressState where
  listened : List JEvent := []
  aClick : Bool := false
  xClick : Bool := false
  errorCount : ℕ := 0
  errorText : String := ""
  vibrationLog : List Pulse := []
  explosionLog : List String := []
  score : ℕ := 0
  lastInf : Option JEvent := none
  rightRefPresent : Bool := true
  leftRefPresent : Bool := true
  balls : List Ball := []
deriving DecidableEq, Repr

/-- The `"sup"` listener of `TossProgress`: when the event is the last
opened one and a toss, the handler first updates the matching indicator —
returning early when that indicator's ref is missing; then, if the hand's
outcome flag is still `false`, count one error and set the missed-toss
message; finally remove the event (`indexOf` + `splice`). -/
def tossProgressSup (e : JEvent) (s : TossProgressState) : TossProgressState :=
  if s.lastInf = some e ∧ e.action = JAction.tossed ∧
      ((e.hand = Side.right ∧ s.rightRefPresent = false) ∨
        (e.hand = Side.left ∧ s.leftRefPresent = false)) then
    s
  else
    let s :=
      if e.action = JAction.tossed ∧ e.hand = Side.right ∧ s.aClick = false then
        { s with errorCount := s.errorCount + 1
                 errorText := "Vous n'avez pas lance la balle a droite" }
      else s
    let s :=
      if e.action = JAction.tossed ∧ e.hand = Side.left ∧ s.xClick = false then
        { s with errorCount := s.errorCount + 1
                 errorText := "Vous n'avez pas lance la balle a gauche" }
      else s
    { s with listened := eraseFirst s.listened e }

/-- The frame loop of `TossProgress` over the monitored events (with their
indices).  A toss event of the pressed hand scores, records its index for
removal, then looks its ball up — returning early (`Bool` flag `true`) from
the whole frame when the ball is missing — and marks the explosion and the
hand's outcome flag. -/
def tossProgressLoop (rightA leftX : Bool) (balls : List Ball) :
    List JEvent → TossProgressState → List ℕ → ℕ → Bool × TossProgressState × List ℕ
  | [], s, acc, _ => (false, s, acc)
  | e :: rest, s, acc, i =>
    if e.action = JAction.tossed ∧ e.hand = Side.right ∧ rightA = true then
      let s := { s with score := s.score + 1 }
      let acc := acc ++ [i]
      match findBall balls e.ballId with
      | none => (true, s, acc)
      | some _ =>
          tossProgressLoop rightA leftX balls rest
            { s with explosionLog := s.explosionLog ++ [e.ballId], aClick := true }
            acc (i + 1)
    else if e.action = JAction.tossed ∧ e.hand = Side.left ∧ leftX = true then
      let s := { s with score := s.score + 1 }
      let acc := acc ++ [i]
      match findBall balls e.ballId with
      | none => (true, s, acc)
      | some _ =>
          tossProgressLoop rightA leftX balls rest
            { s with explosionLog := s.explosionLog ++ [e.ballId], xClick := true }
            acc (i + 1)
    else
      tossProgressLoop rightA leftX balls rest s acc (i + 1)

/-- The removal loop shared by `TossProgress` and the squeeze-based
`CatchChecker`: `for (let i = eventToRemove.length - 1; i > 0; i--)
listenedEvent.current.splice(i, 1)` — note that it splices at the loop index
`i` (not at `eventToRemove[i]`) and stops before `i = 0`.  `spliceLoop k`
performs the body for `i = k, k - 1, …, 1`. -/
def spliceLoop {α : Type} : ℕ → List α → List α
  | 0, l => l
  | i + 1, l => spliceLoop i (l.eraseIdx (i + 1))

/-- The `useFrame` callback of `TossProgress`: run the match loop (stopping
everything on its early return), then fire the `(3, 100)` error pulse, count
an error and show "Mauvais timing" for a pressed button with no open window
of its kind, and finally run the (index-shifted) removal loop. -/
def tossProgressFrame (rightA leftX : Bool) (s : TossProgressState) : TossProgressState :=
  match tossProgressLoop rightA leftX s.balls s.listened s [] 0 with
  | (true, s1, _) => s1
  | (false, s1, toRemove) =>
    let hasA := s1.listened.any (fun e => e.action == JAction.tossed && e.hand == Side.right)
    let hasX := s1.listened.any (fun e => e.action == JAction.tossed && e.hand == Side.left)
    let s2 :=
      if rightA = true ∧ hasA = false then
        { s1 with vibrationLog := s1.vibrationLog ++ [(Side.right, 3, 100)]
                  errorCount := s1.errorCount + 1
                  errorText := "Mauvais timing" }
      else s1
    let s3 :=
      if leftX = true ∧ hasX = false then
        { s2 with vibrationLog := s2.vibrationLog ++ [(Side.left, 3, 100)]
                  errorCount := s2.errorCount + 1
                  errorText := "Mauvais timing" }
      else s2
    { s3 with listened := spliceLoop (toRemove.length - 1) s3.listened }

/- ## Squeeze-based catch judge (legacy `CatchChecker` variant) -/

/-- State of the squeeze-based `CatchChecker` variant: monitored events,
per-hand outcome flags (`squeezeRightClick` / `squeezeLeftClick`), error
counter and message, haptic and explosion logs. -/
structure CatchSqueezeState where
  listened : List JEvent := []
  squeezeRightClick : Bool := false
  squeezeLeftClick : Bool := false
  errorCount : ℕ := 0
  errorText : String := ""
  vibrationLog : List Pulse := []
  explosionLog : List String := []
  balls : List Ball := []
deriving DecidableEq, Repr

/-- The frame loop of the squeeze-based `CatchChecker`: a catch event of the
squeezed hand records its index for removal, looks its ball up — returning
early from the whole frame when missing — and marks the explosion and the
hand's outcome flag. -/
def catchSqueezeLoop (rightSqueeze leftSqueeze : Bool) (balls : List Ball) :
    List JEvent → CatchSqueezeState → List ℕ → ℕ → Bool × CatchSqueezeState × List ℕ
  | [], s, acc, _ => (false, s, acc)
  | e :: rest, s, acc, i =>
    if e.action = JAction.caught ∧ e.hand = Side.right ∧ rightSqueeze = true then
      let acc := acc ++ [i]
      match findBall balls e.ballId with
      | none => (true, s, acc)
      | some _ =>
          catchSqueezeLoop rightSqueeze leftSqueeze balls rest
            { s with explosionLog := s.explosionLog ++ [e.ballId], squeezeRightClick := true }
            acc (i + 1)
    else if e.action = JAction.caught ∧ e.hand = Side.left ∧ leftSqueeze = true then
      let acc := acc ++ [i]
      match findBall balls e.ballId with
      | none => (true, s, acc)
      | some _ =>
          catchSqueezeLoop rightSqueeze leftSqueeze balls rest
            { s with explosionLog := s.explosionLog ++ [e.ballId], squeezeLeftClick := true }
            acc (i + 1)
    else
      catchSqueezeLoop rightSqueeze leftSqueeze balls rest s acc (i + 1)

/-- The `useFrame` callback of the squeeze-based `CatchChecker`: run the
match loop (stopping on its early return), fire the `(3, 100)` error pulse,
count an error and show "Mauvais timing !" for a squeeze with no open catch
window on that hand, then run the removal loop. -/
def catchSqueezeFrame (rightSqueeze leftSqueeze : Bool) (s : CatchSqueezeState) :
    CatchSqueezeState :=
  match catchSqueezeLoop rightSqueeze leftSqueeze s.balls s.listened s [] 0 with
  | (true, s1, _) => s1
  | (false, s1, toRemove) =>
    let hasR := s1.listened.any (fun e => e.action == JAction.caught && e.hand == Side.right)
    let hasL := s1.listened.any (fun e => e.action == JAction.caught && e.hand == Side.left)
    let s2 :=
      if rightSqueeze = true ∧ hasR = false then
        { s1 with vibrationLog := s1.vibrationLog ++ [(Side.right, 3, 100)]
                  errorCount := s1.errorCount + 1
                  errorText := "Mauvais timing !" }
      else s1
    let s3 :=
      if leftSqueeze = true ∧ hasL = false then
        { s2 with vibrationLog := s2.vibrationLog ++ [(Side.left, 3, 100)]
                  errorCount := s2.errorCount + 1
                  errorText := "Mauvais timing !" }
      else s2
    { s3 with listened := spliceLoop (toRemove.length - 1) s3.listened }

/- ## Hand gesture detectors (`handState.ts`) -/

/-- An opaque `XRJointSpace` handle. -/
abbrev JointSpace := ℕ

/-- An opaque `XRReferenceSpace` handle. -/
abbrev RefSpace := ℕ

/-- An `XRJointPose`: only the transform's position is consumed. -/
structure XRPose where
  position : Vec3

/-- An `XRHand`: `hand.get(jointName)` may return a joint space or
`undefined`. -/
structure XRHandModel where
  get : String → Option JointSpace

/-- An `XRFrame`: whether `frame.getJointPose` exists, and the pose lookup
itself (which may return `undefined`). -/
structure XRFrameModel where
  hasGetJointPose : Bool
  getJointPose : JointSpace → RefSpace → Option XRPose

/-- `a.distanceTo(b)` of three.js, as a real number (noncomputable only
because `Real.sqrt` carries no executable code; every gesture predicate
below is settled propositionally, never by evaluation of a distance). -/
noncomputable def vecDist (a b : Vec3) : ℝ :=
  Real.sqrt ((distSq a b : ℚ) : ℝ)

/-- `isPinching` of `handState.ts`: `false` when the hand, frame,
`frame.getJointPose` or reference space is missing, when a fingertip joint
is missing, or when a joint pose is unavailable; otherwise true exactly when
the thumb-tip-to-index-tip distance is below the threshold. -/
def isPinching (hand : Option XRHandModel) (frame : Option XRFrameModel)
    (referenceSpace : Option RefSpace) (threshold : ℚ) : Prop :=
  match hand, frame, referenceSpace with
  | some h, some f, some r =>
    f.hasGetJointPose = true ∧
    match h.get "thumb-tip", h.get "index-finger-tip" with
    | some thumbTip, some indexTip =>
      match f.getJointPose thumbTip r, f.getJointPose indexTip r with
      | some thumbPose, some indexPose =>
          vecDist thumbPose.position indexPose.position < (threshold : ℝ)
      | _, _ => False
    | _, _ => False
  | _, _, _ => False

/-- `isPinchingMiddle` of `handState.ts`: as `isPinching`, with the
middle-finger tip. -/
def isPinchingMiddle (hand : Option XRHandModel) (frame : Option XRFrameModel)
    (referenceSpace : Option RefSpace) (threshold : ℚ) : Prop :=
  match hand, frame, referenceSpace with
  | some h, some f, some r =>
    f.hasGetJointPose = true ∧
    match h.get "thumb-tip", h.get "middle-finger-tip" with
    | some thumbTip, some middleTip =>
      match f.getJointPose thumbTip r, f.getJointPose middleTip r with
      | some thumbPose, some middlePose =>
          vecDist thumbPose.position middlePose.position < (threshold : ℝ)
      | _, _ => False
    | _, _ => False
  | _, _, _ => False

/-- `isOpenHand` of `handState.ts`: `false` on any missing input, joint or
pose; otherwise true exactly when the average distance from the palm
(middle-finger metacarpal) to the four fingertips exceeds the threshold. -/
def isOpenHand (hand : Option XRHandModel) (frame : Option XRFrameModel)
    (referenceSpace : Option RefSpace) (threshold : ℚ) : Prop :=
  match hand, frame, referenceSpace with
  | some h, some f, some r =>
    f.hasGetJointPose = true ∧
    match h.get "middle-finger-metacarpal", h.get "index-finger-tip",
        h.get "middle-finger-tip", h.get "ring-finger-tip", h.get "pinky-finger-tip" with
    | some palm, some indexTip, some middleTip, some ringTip, some pinkyTip =>
      match f.getJointPose palm r, f.getJointPose indexTip r, f.getJointPose middleTip r,
          f.getJointPose ringTip r, f.getJointPose pinkyTip r with
      | some palmPose, some indexPose, some middlePose, some ringPose, some pinkyPose =>
          (vecDist palmPose.position indexPose.position +
              vecDist palmPose.position middlePose.position +
              vecDist palmPose.position ringPose.position +
              vecDist palmPose.position pinkyPose.position) / 4 > (threshold : ℝ)
      | _, _, _, _, _ => False
    | _, _, _, _, _ => False
  | _, _, _ => False

/-- `isCloseHand` of `handState.ts`: not just the negation of `isOpenHand` —
it first checks that the hand, frame, `frame.getJointPose` and reference
space are all defined (returning `false` otherwise), then returns
`!isOpenHand(hand, frame, referenceSpace, threshold)`. -/
def isCloseHand (hand : Option XRHandModel) (frame : Option XRFrameModel)
    (referenceSpace : Option RefSpace) (threshold : ℚ) : Prop :=
  match hand, frame, referenceSpace with
  | some h, some f, some r =>
    f.hasGetJointPose = true ∧
    ¬ isOpenHand (some h) (some f) (some r) threshold
  | _, _, _ => False

/- ## Debounced tutorial input (`tutorials/toss/introduction.tsx`) -/

/-- State of the introduction scene's input handling: the frame counter
(`tickcount`), the last-triggered-frame stamp (`clickCount`), the tutorial
progression index, the per-hand rising-edge memories of `HandState`, and a
log of the frame numbers at which `handleOK` accepted a firing. -/
structure IntroState where
  tick : ℕ := 0
  clickCount : ℕ := 0
  currentProgression : ℕ := 0
  wasPinchingRight : Bool := false
  wasPinchingLeft : Bool := false
  fires : List ℕ := []
deriving DecidableEq, Repr

/-- `handleOK` of `introduction.tsx`: accept the firing only when more than
100 frames have elapsed since the last accepted one
(`Math.abs(clickCount.current - tickcount.current) > 100`), in which case
the stamp is set to the current frame and the progression advances (the
`setText`/scene-change side effects are not modelled); `fires` records the
accepted frame. -/
def handleOK (s : IntroState) : IntroState :=
  if 100 < ((s.clickCount : ℤ) - (s.tick : ℤ)).natAbs then
    { s with clickCount := s.tick
             currentProgression := s.currentProgression + 1
             fires := s.fires ++ [s.tick] }
  else s

/-- One rendered frame of the introduction scene: `handState.update`
dispatches a `"pinch"` event on the rising edge of each hand's pinch signal
(each wired to `handleOK`), a held B button calls `handleOK` every frame,
and `tickcount` is incremented at the end. -/
def introFrame (pinchRight pinchLeft buttonB : Bool) (s : IntroState) : IntroState :=
  let fireRight := pinchRight && !s.wasPinchingRight
  let s := { s with wasPinchingRight := pinchRight }
  let s := if fireRight then handleOK s else s
  let fireLeft := pinchLeft && !s.wasPinchingLeft
  let s := { s with wasPinchingLeft := pinchLeft }
  let s := if fireLeft then handleOK s else s
  let s := if buttonB then handleOK s else s
  { s with tick := s.tick + 1 }

/-- A sequence of rendered frames, each with its raw input signals
`(pinchRight, pinchLeft, buttonB)`. -/
def runIntro (l : List (Bool × Bool × Bool)) (s : IntroState) : IntroState :=
  l.foldl (fun s p => introFrame p.1 p.2.1 p.2.2 s) s

/-- The initial state of the introduction scene (`useRef(0)` everywhere). -/
def introInit : IntroState := {}

/- ## Traces of the stop-at-each-event catch session (for §4.1/§4.4) -/

/-- A sequence of `CatchChecker` frames, each with the two hand positions. -/
def runCatchFrames (makeStop : Bool) (l : List (Option Vec3 × Option Vec3))
    (s : CatchCheckerState) : CatchCheckerState :=
  l.foldl (fun s p => catchCheckerFrame makeStop p.1 p.2 s) s

/-- Whether some monitored event is hit by the given hand positions. -/
def anyCatchHit (p : Option Vec3 × Option Vec3) (s : CatchCheckerState) : Bool :=
  s.listened.any (catchHit p.1 p.2 s.balls)

/-- Whether any frame of the trace produces a successful match. -/
def anyMatchDuring (makeStop : Bool) :
    List (Option Vec3 × Option Vec3) → CatchCheckerState → Bool
  | [], _ => false
  | p :: t, s => anyCatchHit p s || anyMatchDuring makeStop t (catchCheckerFrame makeStop p.1 p.2 s)

/- ## Concrete inputs used by witnesses and counterexamples -/

/-- A right-hand toss event on the ball `"Do?K"`. -/
def tossRightEvent : JEvent := ⟨0, JAction.tossed, Side.right, "Do?K"⟩

/-- A `TossProgress` state with one open right-toss window whose ball is
present in the scene. -/
def tossOneWindowState : TossProgressState :=
  { listened := [tossRightEvent], balls := [⟨"Do?K", ⟨0, 0, 0⟩, 1 / 20⟩] }

/-- The per-hand outcome flag of `CatchChecker`
(`hasCatchRight` / `hasCatchLeft`). -/
def catchFlag (s : CatchCheckerState) : Side → Bool
  | Side.right => s.hasCatchRight
  | Side.left => s.hasCatchLeft

/-- The per-hand outcome flag of `TossProgress` (`Aclick` / `Xclick`). -/
def tossFlag (s : TossProgressState) : Side → Bool
  | Side.right => s.aClick
  | Side.left => s.xClick

/-- The missed-catch message shown for each hand. -/
def missedCatchMsg : Side → String
  | Side.right => "Vous n'avez pas rattrape la balle a droite"
  | Side.left => "Vous n'avez pas rattrape la balle a gauche"

/-- The missed-toss message shown for each hand. -/
def missedTossMsg : Side → String
  | Side.right => "Vous n'avez pas lance la balle a droite"
  | Side.left => "Vous n'avez pas lance la balle a gauche"

/-- A concrete hand whose joints are all available. -/
def witnessHand : XRHandModel := ⟨fun _ => some 0⟩

/-- A concrete frame: `getJointPose` exists and yields the origin pose. -/
def witnessFrame : XRFrameModel := ⟨true, fun _ _ => some ⟨⟨0, 0, 0⟩⟩⟩

/- ## Theorems -/

/-- C1.  For a toss event whose `flightTime = unitTime × siteswapHeight` is
zero or negative, the trajectory predictor skips the launch-velocity
computation and produces the default straight-up direction; the cached guide
direction is a well-defined unit vector and the guide computation never
divides by zero (it is defined for every flight time). -/
theorem c1_trajectory_fallback (e : TossAlert) (s : TossCheckerState)
    (hact : e.action = JAction.tossed) (hhand : e.hand = Side.right)
    (hft : e.unitTime * e.siteswapHeight ≤ 0) :
    (tossCheckerInf e s).velocityRight = some straightUp ∧
      straightUp.normSq = 1 ∧
      ∀ p q : Vec3, ∀ t : ℚ, (tossGuideDir p q t).isSome := by
  refine ⟨?_, by simp [straightUp, Vec3.normSq], ?_⟩
  · simp [tossCheckerInf, hact, hhand, tossGuideDir, hft]
  · intro p q t
    by_cases h : t ≤ 0
    · simp [tossGuideDir, h]
    · have ht : t ≠ 0 := fun h0 => h (le_of_eq h0)
      simp [tossGuideDir, h, ballVelocityRaw, safeDiv, ht]

/-- Witness for C1 at a concrete malformed toss (flight time `0`). -/
theorem c1_witness :
    (tossCheckerInf ⟨JAction.tossed, Side.right, 0, 1, ⟨0, 0, 0⟩, ⟨1, 2, 3⟩⟩ {}).velocityRight
        = some straightUp ∧
      straightUp.normSq = 1 ∧
      ∀ p q : Vec3, ∀ t : ℚ, (tossGuideDir p q t).isSome :=
  c1_trajectory_fallback _ _ rfl rfl (by norm_num)

/-- C9.  When `nextLevel` looks up a level index with no entry in the table,
it logs a warning and returns without mutating the clock, the level index or
the error counter, and without throwing. -/
theorem c9_missing_level_halts (s : PracticeState)
    (h : levelsInformations s.level = none) :
    nextLevel s =
      { s with warnings := s.warnings ++ ["No information for level " ++ toString s.level] } := by
  simp [nextLevel, h]

/-- Witness for C9 at the concrete out-of-table level index `5`. -/
theorem c9_witness :
    nextLevel ⟨5, 0, 0, 1, true, [], []⟩ =
      { level := 5, errorCount := 0, time := 0, rate := 1, paused := true, msgs := [],
        warnings := ["No information for level 5"] } :=
  c9_missing_level_halts ⟨5, 0, 0, 1, true, [], []⟩ rfl

/-- C2.  At every `"reachedEnd"` boundary: with at least one error, the
routine resets the counter, keeps the level, restores that same level's
configured playback rate, seeks to 0 and resumes; with zero errors it
advances the level by exactly one, or — when no further level exists in the
table — keeps the level, stays paused and shows the terminal completion
message. -/
theorem c2_progression (s : PracticeState) (infos : LevelInfo)
    (h : levelsInformations s.level = some infos) :
    (0 < s.errorCount →
      (handleReachedEnd s).level = s.level ∧
      (handleReachedEnd s).errorCount = 0 ∧
      (handleReachedEnd s).rate = infos.speed ∧
      (handleReachedEnd s).time = 0 ∧
      (handleReachedEnd s).paused = false) ∧
    (s.errorCount = 0 → s.level + 1 ≤ 4 →
      (handleReachedEnd s).level = s.level + 1) ∧
    (s.errorCount = 0 → ¬ s.level + 1 ≤ 4 →
      (handleReachedEnd s).level = s.level ∧
      (handleReachedEnd s).paused = true ∧
      (handleReachedEnd s).msgs.getLast? =
        some "Bravo ! Vous avez termine tous les niveaux !") := by
  refine ⟨fun herr => ?_, fun herr hlt => ?_, fun herr hlt => ?_⟩
  · simp [handleReachedEnd, nextLevel, h, herr]
  · rcases h2 : levelsInformations (s.level + 1) with _ | info <;>
      simp [handleReachedEnd, nextLevel, h, herr, hlt, h2]
  · simp [handleReachedEnd, nextLevel, h, herr, hlt]

/-- Witness for C2: an erroneous repetition at level 1 repeats level 1 at
rate 3/10; a clean repetition at level 2 advances to level 3. -/
theorem c2_witness :
    (handleReachedEnd ⟨1, 1, 5, 1, false, [], []⟩).level = 1 ∧
    (handleReachedEnd ⟨1, 1, 5, 1, false, [], []⟩).rate = 3 / 10 ∧
    (handleReachedEnd ⟨2, 0, 5, 1, false, [], []⟩).level = 3 := by
  refine ⟨?_, ?_, ?_⟩
  · exact ((c2_progression ⟨1, 1, 5, 1, false, [], []⟩ _ rfl).1 (by norm_num)).1
  · exact ((c2_progression ⟨1, 1, 5, 1, false, [], []⟩ _ rfl).1 (by norm_num)).2.2.1
  · exact (c2_progression ⟨2, 0, 5, 1, false, [], []⟩ _ rfl).2.1 rfl (by norm_num)

/-- C3.  On a window-close notification whose hand outcome flag is still
`false`, the checker increments the error counter exactly once and sets the
message identifying the missed hand and action; the window is removed from
the active set whether or not it was matched; and no haptic pulse is fired
on this timeout path. -/
theorem c3_window_close_miss (e f : JEvent) (cs : CatchCheckerState) (ts : TossProgressState)
    (hce : e.action = JAction.caught) (hcf : catchFlag cs e.hand = false)
    (hte : f.action = JAction.tossed) (htf : tossFlag ts f.hand = false)
    (hrr : ts.rightRefPresent = true) (hrl : ts.leftRefPresent = true) :
    ((catchCheckerSup e cs).errorCount = cs.errorCount + 1 ∧
      (catchCheckerSup e cs).errorText = missedCatchMsg e.hand ∧
      (catchCheckerSup e cs).vibrationLog = cs.vibrationLog ∧
      ∀ cs' : CatchCheckerState, (catchCheckerSup e cs').listened = eraseFirst cs'.listened e) ∧
    ((tossProgressSup f ts).errorCount = ts.errorCount + 1 ∧
      (tossProgressSup f ts).errorText = missedTossMsg f.hand ∧
      (tossProgressSup f ts).vibrationLog = ts.vibrationLog ∧
      (tossProgressSup f ts).listened = eraseFirst ts.listened f) := by
  constructor
  · cases hh : e.hand <;> rw [hh] at hcf <;> simp [catchFlag] at hcf <;>
      simp [catchCheckerSup, hce, hh, hcf, missedCatchMsg, apply_ite]
  · cases hh : f.hand <;> rw [hh] at htf <;> simp [tossFlag] at htf <;>
      simp [tossProgressSup, hte, hh, htf, missedTossMsg, hrr, hrl]

/-- Witness for C3: a right catch window and a left toss window both close
with their flags still `false` from the initial state. -/
theorem c3_witness :
    (catchCheckerSup ⟨3, JAction.caught, Side.right, "b"⟩ {}).errorCount = 1 ∧
    (catchCheckerSup ⟨3, JAction.caught, Side.right, "b"⟩ {}).errorText =
      missedCatchMsg Side.right ∧
    (tossProgressSup ⟨4, JAction.tossed, Side.left, "b"⟩ {}).errorCount = 1 ∧
    (tossProgressSup ⟨4, JAction.tossed, Side.left, "b"⟩ {}).vibrationLog = [] := by
  have h := c3_window_close_miss ⟨3, JAction.caught, Side.right, "b"⟩
    ⟨4, JAction.tossed, Side.left, "b"⟩ {} {} rfl rfl rfl rfl rfl rfl
  exact ⟨h.1.1, h.1.2.1, h.2.1, h.2.2.2.1⟩

/-- When each pressed button has no monitored toss event of its hand, the
`TossProgress` frame loop matches nothing. -/
theorem tossProgressLoop_skip (ra lx : Bool) (balls : List Ball) (l : List JEvent)
    (s : TossProgressState) (acc : List ℕ) (i : ℕ)
    (hR : ∀ e ∈ l, ra = true → ¬ (e.action = JAction.tossed ∧ e.hand = Side.right))
    (hL : ∀ e ∈ l, lx = true → ¬ (e.action = JAction.tossed ∧ e.hand = Side.left)) :
    tossProgressLoop ra lx balls l s acc i = (false, s, acc) := by
  induction l generalizing s acc i with
  | nil => rfl
  | cons e rest ih =>
    have heR := hR e (List.mem_cons_self e rest)
    have heL := hL e (List.mem_cons_self e rest)
    rw [tossProgressLoop, if_neg (by tauto), if_neg (by tauto)]
    exact ih s acc (i + 1) (fun x hx => hR x (List.mem_cons_of_mem e hx))
      (fun x hx => hL x (List.mem_cons_of_mem e hx))

/-- When each held squeeze has no monitored catch event of its hand, the
squeeze-based `CatchChecker` frame loop matches nothing. -/
theorem catchSqueezeLoop_skip (rs ls : Bool) (balls : List Ball) (l : List JEvent)
    (s : CatchSqueezeState) (acc : List ℕ) (i : ℕ)
    (hR : ∀ e ∈ l, rs = true → ¬ (e.action = JAction.caught ∧ e.hand = Side.right))
    (hL : ∀ e ∈ l, ls = true → ¬ (e.action = JAction.caught ∧ e.hand = Side.left)) :
    catchSqueezeLoop rs ls balls l s acc i = (false, s, acc) := by
  induction l generalizing s acc i with
  | nil => rfl
  | cons e rest ih =>
    have heR := hR e (List.mem_cons_self e rest)
    have heL := hL e (List.mem_cons_self e rest)
    rw [catchSqueezeLoop, if_neg (by tauto), if_neg (by tauto)]
    exact ih s acc (i + 1) (fun x hx => hR x (List.mem_cons_of_mem e hx))
      (fun x hx => hL x (List.mem_cons_of_mem e hx))

/-- Effect of a `TossProgress` frame in which every pressed button is
spurious (no open toss window of its hand): one error pulse, one error
count and the timing message per pressed hand, everything else — monitored
windows, outcome flags, score, explosions — unchanged. -/
theorem tossProgressFrame_spurious (ra lx : Bool) (ts : TossProgressState)
    (hR : ra = true → ∀ e ∈ ts.listened, ¬ (e.action = JAction.tossed ∧ e.hand = Side.right))
    (hL : lx = true → ∀ e ∈ ts.listened, ¬ (e.action = JAction.tossed ∧ e.hand = Side.left)) :
    tossProgressFrame ra lx ts =
      { ts with
        vibrationLog := ts.vibrationLog ++ (if ra then [(Side.right, 3, 100)] else [])
          ++ (if lx then [(Side.left, 3, 100)] else [])
        errorCount := ts.errorCount + (if ra then 1 else 0) + (if lx then 1 else 0)
        errorText := if ra || lx then "Mauvais timing" else ts.errorText } := by
  have hskip := tossProgressLoop_skip ra lx ts.balls ts.listened ts [] 0
    (fun e he hra => hR hra e he) (fun e he hlx => hL hlx e he)
  rcases ra with _ | _ <;> rcases lx with _ | _
  · rw [tossProgressFrame, hskip]
    simp [spliceLoop]
  · have hX : ts.listened.any
        (fun e => e.action == JAction.tossed && e.hand == Side.left) = false := by
      rw [List.any_eq_false]
      intro e he
      have := hL rfl e he
      simp only [Bool.and_eq_true, beq_iff_eq]
      tauto
    rw [tossProgressFrame, hskip]
    simp [hX, spliceLoop]
  · have hA : ts.listened.any
        (fun e => e.action == JAction.tossed && e.hand == Side.right) = false := by
      rw [List.any_eq_false]
      intro e he
      have := hR rfl e he
      simp only [Bool.and_eq_true, beq_iff_eq]
      tauto
    rw [tossProgressFrame, hskip]
    simp [hA, spliceLoop]
  · have hA : ts.listened.any
        (fun e => e.action == JAction.tossed && e.hand == Side.right) = false := by
      rw [List.any_eq_false]
      intro e he
      have := hR rfl e he
      simp only [Bool.and_eq_true, beq_iff_eq]
      tauto
    have hX : ts.listened.any
        (fun e => e.action == JAction.tossed && e.hand == Side.left) = false := by
      rw [List.any_eq_false]
      intro e he
      have := hL rfl e he
      simp only [Bool.and_eq_true, beq_iff_eq]
      tauto
    rw [tossProgressFrame, hskip]
    simp [hA, hX, spliceLoop]

/-- Effect of a squeeze-based `CatchChecker` frame in which every held
squeeze is spurious (no open catch window of its hand): one error pulse,
one error count and the timing message per squeezed hand, everything else
unchanged. -/
theorem catchSqueezeFrame_spurious (rs ls : Bool) (cs : CatchSqueezeState)
    (hR : rs = true → ∀ e ∈ cs.listened, ¬ (e.action = JAction.caught ∧ e.hand = Side.right))
    (hL : ls = true → ∀ e ∈ cs.listened, ¬ (e.action = JAction.caught ∧ e.hand = Side.left)) :
    catchSqueezeFrame rs ls cs =
      { cs with
        vibrationLog := cs.vibrationLog ++ (if rs then [(Side.right, 3, 100)] else [])
          ++ (if ls then [(Side.left, 3, 100)] else [])
        errorCount := cs.errorCount + (if rs then 1 else 0) + (if ls then 1 else 0)
        errorText := if rs || ls then "Mauvais timing !" else cs.errorText } := by
  have hskip := catchSqueezeLoop_skip rs ls cs.balls cs.listened cs [] 0
    (fun e he hrs => hR hrs e he) (fun e he hls => hL hls e he)
  rcases rs with _ | _ <;> rcases ls with _ | _
  · rw [catchSqueezeFrame, hskip]
    simp [spliceLoop]
  · have hX : cs.listened.any
        (fun e => e.action == JAction.caught && e.hand == Side.left) = false := by
      rw [List.any_eq_false]
      intro e he
      have := hL rfl e he
      simp only [Bool.and_eq_true, beq_iff_eq]
      tauto
    rw [catchSqueezeFrame, hskip]
    simp [hX, spliceLoop]
  · have hA : cs.listened.any
        (fun e => e.action == JAction.caught && e.hand == Side.right) = false := by
      rw [List.any_eq_false]
      intro e he
      have := hR rfl e he
      simp only [Bool.and_eq_true, beq_iff_eq]
      tauto
    rw [catchSqueezeFrame, hskip]
    simp [hA, spliceLoop]
  · have hA : cs.listened.any
        (fun e => e.action == JAction.caught && e.hand == Side.right) = false := by
      rw [List.any_eq_false]
      intro e he
      have := hR rfl e he
      simp only [Bool.and_eq_true, beq_iff_eq]
      tauto
    have hX : cs.listened.any
        (fun e => e.action == JAction.caught && e.hand == Side.left) = false := by
      rw [List.any_eq_false]
      intro e he
      have := hL rfl e he
      simp only [Bool.and_eq_true, beq_iff_eq]
      tauto
    rw [catchSqueezeFrame, hskip]
    simp [hA, hX, spliceLoop]

/-- C4.  For every frame and every hand — left, right, or both at once —
whose fused action signal fires while no open window of the corresponding
kind exists for that hand, the judge fires that hand's `(3, 100)` error
pulse, increments the error counter once per spurious hand, and surfaces
the timing-error message, while every open window and every hand outcome
flag (and all other state) stays unchanged; shown for both the toss judge
and the squeeze-based catch judge. -/
theorem c4_spurious_action (ra lx : Bool) (ts : TossProgressState) (cs : CatchSqueezeState)
    (htR : ra = true → ∀ e ∈ ts.listened, ¬ (e.action = JAction.tossed ∧ e.hand = Side.right))
    (htL : lx = true → ∀ e ∈ ts.listened, ¬ (e.action = JAction.tossed ∧ e.hand = Side.left))
    (hcR : ra = true → ∀ e ∈ cs.listened, ¬ (e.action = JAction.caught ∧ e.hand = Side.right))
    (hcL : lx = true → ∀ e ∈ cs.listened, ¬ (e.action = JAction.caught ∧ e.hand = Side.left)) :
    tossProgressFrame ra lx ts =
      { ts with
        vibrationLog := ts.vibrationLog ++ (if ra then [(Side.right, 3, 100)] else [])
          ++ (if lx then [(Side.left, 3, 100)] else [])
        errorCount := ts.errorCount + (if ra then 1 else 0) + (if lx then 1 else 0)
        errorText := if ra || lx then "Mauvais timing" else ts.errorText } ∧
    catchSqueezeFrame ra lx cs =
      { cs with
        vibrationLog := cs.vibrationLog ++ (if ra then [(Side.right, 3, 100)] else [])
          ++ (if lx then [(Side.left, 3, 100)] else [])
        errorCount := cs.errorCount + (if ra then 1 else 0) + (if lx then 1 else 0)
        errorText := if ra || lx then "Mauvais timing !" else cs.errorText } :=
  ⟨tossProgressFrame_spurious ra lx ts htR htL,
    catchSqueezeFrame_spurious ra lx cs hcR hcL⟩

/-- Witness for C4: a spurious left button with a right-catch window open
elsewhere, a spurious right button with a left-toss window open, and both
hands spurious at once from the empty state. -/
theorem c4_witness :
    (tossProgressFrame true false
        { listened := [⟨7, JAction.tossed, Side.left, "b"⟩] }).errorCount = 1 ∧
    (tossProgressFrame true false
        { listened := [⟨7, JAction.tossed, Side.left, "b"⟩] }).listened =
      [⟨7, JAction.tossed, Side.left, "b"⟩] ∧
    (tossProgressFrame false true
        { listened := [⟨8, JAction.tossed, Side.right, "b"⟩] }).vibrationLog =
      [(Side.left, 3, 100)] ∧
    (tossProgressFrame false true
        { listened := [⟨8, JAction.tossed, Side.right, "b"⟩] }).xClick = false ∧
    (catchSqueezeFrame false true ({} : CatchSqueezeState)).vibrationLog =
      [(Side.left, 3, 100)] ∧
    (catchSqueezeFrame true true ({} : CatchSqueezeState)).errorCount = 2 := by
  have h1 := c4_spurious_action true false
    { listened := [⟨7, JAction.tossed, Side.left, "b"⟩] } {}
    (by decide) (by simp) (by decide) (by simp)
  have h2 := c4_spurious_action false true
    { listened := [⟨8, JAction.tossed, Side.right, "b"⟩] } {}
    (by simp) (by decide) (by simp) (by decide)
  have h3 := c4_spurious_action true true ({} : TossProgressState) {}
    (by simp) (by simp) (by simp) (by simp)
  refine ⟨?_, ?_, ?_, ?_, ?_, ?_⟩
  · rw [h1.1]
    rfl
  · rw [h1.1]
  · rw [h2.1]
    rfl
  · rw [h2.1]
  · rw [h2.2]
    rfl
  · rw [h3.2]
    rfl

/-- C5 (failing evaluation).  In `TossProgress`, a matched right-toss window
is *not* removed from the monitored set: with one open right-toss window and
the A button held, the frame matches the event (score 1, one explosion, flag
set) yet leaves it in `listenedEvent` — the removal loop
`for (let i = eventToRemove.length - 1; i > 0; i--) splice(i, 1)` removes
nothing for a single match — so the very next frame matches the same event
instance a second time (score 2, a second explosion), contradicting
at-most-one-match. -/
theorem c5_matched_event_rematches :
    (tossProgressFrame true false tossOneWindowState).listened = [tossRightEvent] ∧
    (tossProgressFrame true false tossOneWindowState).score = 1 ∧
    (tossProgressFrame true false tossOneWindowState).explosionLog = ["Do?K"] ∧
    (tossProgressFrame true false tossOneWindowState).aClick = true ∧
    (tossProgressFrame true false
        (tossProgressFrame true false tossOneWindowState)).score = 2 ∧
    (tossProgressFrame true false
        (tossProgressFrame true false tossOneWindowState)).explosionLog =
      ["Do?K", "Do?K"] := by
  decide

/-- C6.  On a window-open notification, the catch checker pushes the event
into the active set and resets the outcome flag of the event's hand; for a
toss, the toss checker computes and caches the guide direction and the
anchor position together with the expected siteswap that exposes the window
for matching. -/
theorem c6_window_open (e : JEvent) (a : TossAlert)
    (cs : CatchCheckerState) (ts : TossCheckerState)
    (hc : e.action = JAction.caught) (ha : a.action = JAction.tossed) :
    ((catchCheckerInf e cs).listened = cs.listened ++ [e] ∧
      catchFlag (catchCheckerInf e cs) e.hand = false) ∧
    (a.hand = Side.right →
      (tossCheckerInf a ts).incomingRight = some a.siteswapHeight ∧
      (tossCheckerInf a ts).velocityRight =
        tossGuideDir a.startPos a.endPos (a.unitTime * a.siteswapHeight) ∧
      (tossCheckerInf a ts).ballPosRight = some a.startPos) ∧
    (a.hand = Side.left →
      (tossCheckerInf a ts).incomingLeft = some a.siteswapHeight ∧
      (tossCheckerInf a ts).velocityLeft =
        tossGuideDir a.startPos a.endPos (a.unitTime * a.siteswapHeight) ∧
      (tossCheckerInf a ts).ballPosLeft = some a.startPos) := by
  refine ⟨⟨?_, ?_⟩, fun hh => ?_, fun hh => ?_⟩
  · simp [catchCheckerInf, hc]
  · cases hh : e.hand <;> simp [catchCheckerInf, hc, hh, catchFlag]
  · simp [tossCheckerInf, ha, hh]
  · simp [tossCheckerInf, ha, hh]

/-- Witness for C6: a concrete left-hand catch window and a concrete
right-hand toss alert from the initial states. -/
theorem c6_witness :
    (catchCheckerInf ⟨9, JAction.caught, Side.left, "b"⟩ {}).listened =
      [⟨9, JAction.caught, Side.left, "b"⟩] ∧
    (catchCheckerInf ⟨9, JAction.caught, Side.left, "b"⟩ {}).hasCatchLeft = false ∧
    (tossCheckerInf ⟨JAction.tossed, Side.right, 3, 1 / 2, ⟨0, 1, 0⟩, ⟨0, 1, 1⟩⟩ {}).velocityRight
        = tossGuideDir ⟨0, 1, 0⟩ ⟨0, 1, 1⟩ (1 / 2 * 3) ∧
    (tossCheckerInf ⟨JAction.tossed, Side.right, 3, 1 / 2, ⟨0, 1, 0⟩, ⟨0, 1, 1⟩⟩ {}).ballPosRight
        = some ⟨0, 1, 0⟩ := by
  have h := c6_window_open ⟨9, JAction.caught, Side.left, "b"⟩
    ⟨JAction.tossed, Side.right, 3, 1 / 2, ⟨0, 1, 0⟩, ⟨0, 1, 1⟩⟩ {} {} rfl rfl
  refine ⟨by simpa using h.1.1, by simpa [catchFlag] using h.1.2, (h.2.1 rfl).2.1, (h.2.1 rfl).2.2⟩

/-- A frame loop pass in which no monitored event is hit changes nothing and
records nothing for removal. -/
theorem catchCheckerLoop_skip (ms : Bool) (rp lp : Option Vec3) (balls : List Ball)
    (l : List JEvent) (s : CatchCheckerState) (acc : List ℕ) (i : ℕ)
    (h : ∀ e ∈ l, catchHit rp lp balls e = false) :
    catchCheckerLoop ms rp lp balls l s acc i = (s, acc) := by
  induction l generalizing s acc i with
  | nil => rfl
  | cons e rest ih =>
    have he := h e (List.mem_cons_self e rest)
    rw [catchCheckerLoop, if_neg (by simp [he])]
    exact ih s acc (i + 1) (fun x hx => h x (List.mem_cons_of_mem e hx))

/-- A frame with no hit is the identity on the checker state. -/
theorem catchCheckerFrame_no_hit (ms : Bool) (p : Option Vec3 × Option Vec3)
    (s : CatchCheckerState) (h : anyCatchHit p s = false) :
    catchCheckerFrame ms p.1 p.2 s = s := by
  have hp : ∀ e ∈ s.listened, catchHit p.1 p.2 s.balls e = false := by
    intro e he
    simpa using List.any_eq_false.mp h e he
  rw [catchCheckerFrame, catchCheckerLoop_skip ms p.1 p.2 s.balls s.listened s [] 0 hp]
  simp [sortDesc]

/-- A trace with no successful match is the identity on the checker state. -/
theorem runCatchFrames_no_match (ms : Bool) (l : List (Option Vec3 × Option Vec3))
    (s : CatchCheckerState) (h : anyMatchDuring ms l s = false) :
    runCatchFrames ms l s = s := by
  induction l generalizing s with
  | nil => rfl
  | cons p t ih =>
    rw [anyMatchDuring, Bool.or_eq_false_iff] at h
    have hf := catchCheckerFrame_no_hit ms p s h.1
    rw [runCatchFrames, List.foldl_cons, hf]
    have := h.2
    rw [hf] at this
    exact ih s this

/-- The frame loop never re-pauses: a state already playing stays playing. -/
theorem catchCheckerLoop_keeps_playing (ms : Bool) (rp lp : Option Vec3)
    (balls : List Ball) (l : List JEvent) (s : CatchCheckerState) (acc : List ℕ) (i : ℕ)
    (h : s.paused = false) :
    (catchCheckerLoop ms rp lp balls l s acc i).1.paused = false := by
  induction l generalizing s acc i with
  | nil => exact h
  | cons e rest ih =>
    rw [catchCheckerLoop]
    by_cases hhit : catchHit rp lp balls e = true
    · rw [if_pos hhit]
      exact ih _ _ _ (by cases ms <;> simp [h])
    · rw [if_neg hhit]
      exact ih s acc (i + 1) h

/-- In stop mode, a frame loop pass that hits some monitored event resumes
the clock. -/
theorem catchCheckerLoop_hit_resumes (rp lp : Option Vec3) (balls : List Ball)
    (l : List JEvent) (s : CatchCheckerState) (acc : List ℕ) (i : ℕ)
    (h : ∃ e ∈ l, catchHit rp lp balls e = true) :
    (catchCheckerLoop true rp lp balls l s acc i).1.paused = false := by
  induction l generalizing s acc i with
  | nil => simp at h
  | cons e rest ih =>
    rw [catchCheckerLoop]
    by_cases hhit : catchHit rp lp balls e = true
    · rw [if_pos hhit]
      exact catchCheckerLoop_keeps_playing true rp lp balls rest _ _ _ (by simp)
    · rw [if_neg hhit]
      rcases h with ⟨x, hx, hxh⟩
      rcases List.mem_cons.mp hx with rfl | hx'
      · exact absurd hxh hhit
      · exact ih s acc (i + 1) ⟨x, hx', hxh⟩

/-- C7.  In stop-at-each-event mode, a point-in-time notification opens the
window for its hand and immediately pauses the clock (both checkers); the
clock stays paused across every frame of a trace containing no successful
match; and a frame with a successful match — respectively the toss success
callbacks — resumes it. -/
theorem c7_stop_mode (e : JEvent) (a : TossAlert) (s : CatchCheckerState)
    (ts : TossCheckerState) (l : List (Option Vec3 × Option Vec3))
    (p : Option Vec3 × Option Vec3)
    (hc : e.action = JAction.caught) (ha : a.action = JAction.tossed)
    (hnm : anyMatchDuring true l (catchCheckerInstant e s) = false)
    (hhit : anyCatchHit p s = true) :
    (catchCheckerInstant e s).paused = true ∧
    (runCatchFrames true l (catchCheckerInstant e s)).paused = true ∧
    (catchCheckerFrame true p.1 p.2 s).paused = false ∧
    (tossCheckerInstant a ts).paused = true ∧
    (tossCheckerSuccessRight true ts).paused = false ∧
    (tossCheckerSuccessLeft true ts).paused = false := by
  have hpause : (catchCheckerInstant e s).paused = true := by
    simp [catchCheckerInstant, hc]
  refine ⟨hpause, ?_, ?_, ?_, ?_, ?_⟩
  · rw [runCatchFrames_no_match true l (catchCheckerInstant e s) hnm]
    exact hpause
  · have hex : ∃ x ∈ s.listened, catchHit p.1 p.2 s.balls x = true :=
      List.any_eq_true.mp hhit
    rw [catchCheckerFrame]
    simpa using catchCheckerLoop_hit_resumes p.1 p.2 s.balls s.listened s [] 0 hex
  · simp [tossCheckerInstant, ha]
  · simp [tossCheckerSuccessRight]
  · simp [tossCheckerSuccessLeft]

/-- Witness for C7: a concrete catch instant, an empty-input trace of two
frames (no match, clock stays paused), and a frame whose right hand sits a
quarter radius away from the ball (match, clock resumes). -/
theorem c7_witness :
    (catchCheckerInstant ⟨1, JAction.caught, Side.right, "Do?K"⟩
        { balls := [⟨"Do?K", ⟨0, 0, 0⟩, 1 / 20⟩] }).paused = true ∧
    (runCatchFrames true [(none, none), (none, none)]
        (catchCheckerInstant ⟨1, JAction.caught, Side.right, "Do?K"⟩
          { balls := [⟨"Do?K", ⟨0, 0, 0⟩, 1 / 20⟩] })).paused = true ∧
    (catchCheckerFrame true (some ⟨1 / 80, 0, 0⟩) none
        { listened := [⟨1, JAction.caught, Side.right, "Do?K"⟩]
          paused := true
          balls := [⟨"Do?K", ⟨0, 0, 0⟩, 1 / 20⟩] }).paused = false := by
  have h := c7_stop_mode ⟨1, JAction.caught, Side.right, "Do?K"⟩
    ⟨JAction.tossed, Side.left, 3, 1 / 2, ⟨0, 0, 0⟩, ⟨0, 0, 1⟩⟩
    { listened := [⟨1, JAction.caught, Side.right, "Do?K"⟩]
      paused := true
      balls := [⟨"Do?K", ⟨0, 0, 0⟩, 1 / 20⟩] }
    {} [(none, none), (none, none)] ((some ⟨1 / 80, 0, 0⟩), none)
    rfl rfl (by decide)
    (by simp [anyCatchHit, catchHit, findBall, distSq]; norm_num)
  exact ⟨by decide, by decide, h.2.2.1⟩

/-- Debounce invariant of the introduction scene: the accepted firings are
more than 100 frames apart, every recorded firing is at most the stamp, and
the stamp never exceeds the frame counter. -/
def IntroInv (s : IntroState) : Prop :=
  List.Chain' (fun a b => a + 100 < b) s.fires ∧
    (∀ f ∈ s.fires, f ≤ s.clickCount) ∧ s.clickCount ≤ s.tick

/-- `handleOK` preserves the debounce invariant. -/
theorem handleOK_inv (s : IntroState) (h : IntroInv s) : IntroInv (handleOK s) := by
  obtain ⟨hchain, hle, hct⟩ := h
  rw [handleOK]
  by_cases hg : 100 < ((s.clickCount : ℤ) - (s.tick : ℤ)).natAbs
  · rw [if_pos hg]
    have hgap : s.clickCount + 100 < s.tick := by omega
    refine ⟨?_, ?_, ?_⟩ <;> dsimp only
    · rw [List.chain'_append]
      refine ⟨hchain, List.chain'_singleton _, ?_⟩
      intro x hx y hy
      rw [List.head?_cons, Option.mem_some_iff] at hy
      subst hy
      have hxm : x ∈ s.fires := by
        rcases List.mem_getLast?_eq_getLast hx with ⟨hne, rfl⟩
        exact List.getLast_mem hne
      have := hle x hxm
      omega
    · intro f hf
      rcases List.mem_append.mp hf with hf' | hf'
      · exact le_trans (hle f hf') hct
      · simp at hf'
        omega
    · exact le_refl _
  · rw [if_neg hg]
    exact ⟨hchain, hle, hct⟩

/-- Appending a frame tick preserves the debounce invariant. -/
theorem IntroInv_tickIncr (t : IntroState) (h : IntroInv t) :
    IntroInv { t with tick := t.tick + 1 } :=
  ⟨h.1, h.2.1, le_trans h.2.2 (Nat.le_succ _)⟩

/-- `handleOK` never touches the rising-edge memories. -/
theorem handleOK_wasPinchingLeft (s : IntroState) :
    (handleOK s).wasPinchingLeft = s.wasPinchingLeft := by
  rw [handleOK]
  split <;> rfl

/-- A rendered frame preserves the debounce invariant. -/
theorem introFrame_inv (pr pl b : Bool) (s : IntroState) (h : IntroInv s) :
    IntroInv (introFrame pr pl b s) := by
  rcases pr with _ | _ <;> rcases pl with _ | _ <;> rcases b with _ | _ <;>
    rcases hr : s.wasPinchingRight with _ | _ <;>
    rcases hl : s.wasPinchingLeft with _ | _ <;>
    simp only [introFrame, hr, hl, handleOK_wasPinchingLeft, Bool.and_true, Bool.and_false,
      Bool.true_and, Bool.false_and, Bool.not_true, Bool.not_false, if_true, if_false,
      Bool.false_eq_true, Bool.true_eq_false, ite_true, ite_false] <;>
    first
      | exact IntroInv_tickIncr _ h
      | exact IntroInv_tickIncr _ (handleOK_inv _ h)
      | exact IntroInv_tickIncr _ (handleOK_inv _ (handleOK_inv _ h))
      | exact IntroInv_tickIncr _ (handleOK_inv _ (handleOK_inv _ (handleOK_inv _ h)))

/-- A whole input trace preserves the debounce invariant. -/
theorem runIntro_inv (l : List (Bool × Bool × Bool)) (s : IntroState) (h : IntroInv s) :
    IntroInv (runIntro l s) := by
  induction l generalizing s with
  | nil => exact h
  | cons p t ih =>
    rw [runIntro, List.foldl_cons]
    exact ih _ (introFrame_inv p.1 p.2.1 p.2.2 s h)

/-- C8.  Along every input trace from the initial state — buttons held or
released, pinches held or released, in any combination — the frames at
which the debounced `handleOK` accepts a firing are strictly more than 100
frames apart: a held button or held pinch yields at most one fired-action
edge within any 100-frame debounce interval, and a new firing is accepted
only once that many frames have elapsed since the previous one. -/
theorem c8_debounce (l : List (Bool × Bool × Bool)) :
    List.Chain' (fun a b => a + 100 < b) (runIntro l introInit).fires := by
  have h : IntroInv introInit := by
    refine ⟨List.chain'_nil, ?_, le_refl _⟩
    intro f hf
    simp [introInit] at hf
  exact (runIntro_inv l introInit h).1

/-- C10.  Whenever the hand, the frame (or its `getJointPose`), or the
reference space is missing, all four gesture detectors return `false`; and
whenever they are all present, `isCloseHand` at a threshold holds exactly
when `isOpenHand` at that same threshold does not (in particular when every
required joint pose is available). -/
theorem c10_gesture_detectors :
    (∀ (f : Option XRFrameModel) (r : Option RefSpace) (t : ℚ),
      ¬ isPinching none f r t ∧ ¬ isPinchingMiddle none f r t ∧
        ¬ isOpenHand none f r t ∧ ¬ isCloseHand none f r t) ∧
    (∀ (h : Option XRHandModel) (r : Option RefSpace) (t : ℚ),
      ¬ isPinching h none r t ∧ ¬ isPinchingMiddle h none r t ∧
        ¬ isOpenHand h none r t ∧ ¬ isCloseHand h none r t) ∧
    (∀ (h : Option XRHandModel) (f : Option XRFrameModel) (t : ℚ),
      ¬ isPinching h f none t ∧ ¬ isPinchingMiddle h f none t ∧
        ¬ isOpenHand h f none t ∧ ¬ isCloseHand h f none t) ∧
    (∀ (hm : XRHandModel) (fm : XRFrameModel) (r : RefSpace) (t : ℚ),
      fm.hasGetJointPose = false →
      ¬ isPinching (some hm) (some fm) (some r) t ∧
        ¬ isPinchingMiddle (some hm) (some fm) (some r) t ∧
        ¬ isOpenHand (some hm) (some fm) (some r) t ∧
        ¬ isCloseHand (some hm) (some fm) (some r) t) ∧
    (∀ (hm : XRHandModel) (fm : XRFrameModel) (r : RefSpace) (t : ℚ),
      fm.hasGetJointPose = true →
      (isCloseHand (some hm) (some fm) (some r) t ↔
        ¬ isOpenHand (some hm) (some fm) (some r) t)) := by
  refine ⟨?_, ?_, ?_, ?_, ?_⟩
  · intro f r t
    cases f <;> cases r <;>
      exact ⟨fun h => h.elim, fun h => h.elim, fun h => h.elim, fun h => h.elim⟩
  · intro h r t
    cases h <;> cases r <;>
      exact ⟨fun h => h.elim, fun h => h.elim, fun h => h.elim, fun h => h.elim⟩
  · intro h f t
    cases h <;> cases f <;>
      exact ⟨fun h => h.elim, fun h => h.elim, fun h => h.elim, fun h => h.elim⟩
  · intro hm fm r t hflag
    refine ⟨?_, ?_, ?_, ?_⟩ <;>
      simp [isPinching, isPinchingMiddle, isOpenHand, isCloseHand, hflag]
  · intro hm fm r t hflag
    simp [isCloseHand, hflag]

/-- Witness for C10: concrete missing inputs, a concrete frame without
`getJointPose`, and a concrete fully-available hand and frame. -/
theorem c10_witness :
    ¬ isPinching none (some witnessFrame) (some 0) (1 / 40) ∧
    ¬ isOpenHand (some witnessHand) none (some 0) (2 / 25) ∧
    ¬ isCloseHand (some witnessHand) (some witnessFrame) none (2 / 25) ∧
    ¬ isPinchingMiddle (some witnessHand) (some ⟨false, fun _ _ => none⟩) (some 0) (1 / 40) ∧
    (isCloseHand (some witnessHand) (some witnessFrame) (some 0) (2 / 25) ↔
      ¬ isOpenHand (some witnessHand) (some witnessFrame) (some 0) (2 / 25)) := by
  refine ⟨?_, ?_, ?_, ?_, ?_⟩
  · exact (c10_gesture_detectors.1 (some witnessFrame) (some 0) (1 / 40)).1
  · exact (c10_gesture_detectors.2.1 (some witnessHand) (some 0) (2 / 25)).2.2.1
  · exact (c10_gesture_detectors.2.2.1 (some witnessHand) (some witnessFrame) (2 / 25)).2.2.2
  · exact (c10_gesture_detectors.2.2.2.1 witnessHand ⟨false, fun _ _ => none⟩ 0 (1 / 40) rfl).2.1
  · exact c10_gesture_detectors.2.2.2.2 witnessHand witnessFrame 0 (2 / 25) rfl
